import Mathlib

/-!
Shallow embedding of the dialog-configuration translation pipeline
(`src/api/routers/sdk/chat.py`) and the OpenAI-compatible completion
adapter (`src/api/routers/chat.py`) of the `shin-hyuk/chatbot` repository,
together with theorems settling the frozen claims about them.

Modelling conventions:
* Python floats are modelled as rationals (`ℚ`); the claims about them are
  algebraic (e.g. `1 - vector_similarity_weight`), not about rounding.
* A Python dict field that may be absent (requests are parsed with
  `dict(exclude_unset=True)`) is an `Option`.
* `get_error_data_result` (code `PARAM_ERROR`) and the one
  `get_result(code=AUTHENTICATION_ERROR)` call site are modelled by the
  two constructors of `ApiError`; returning `.error` models "no record is
  written" (the handlers return before `DialogService.save`).
* External services (knowledge bases, LLM registry, dialog store, tenant
  store) are an explicit environment `Env`.
-/

namespace Chatbot

/-- `firstSome a b` is `a` when present, otherwise `b`: the value a Python
dict slot holds after `d[k] = other.pop(k)`-style overwriting guarded by
`if k in other`. -/
def firstSome {α : Type} (a b : Option α) : Option α :=
  match a with
  | some x => some x
  | none => b

/-- `listStarts hay needle` is true when `needle` is an initial segment of
`hay` (character lists). -/
def listStarts : List Char → List Char → Bool
  | _, [] => true
  | [], _ :: _ => false
  | h :: hs, n :: ns => h == n && listStarts hs ns

/-- `listContainsSub hay needle`: `needle` occurs contiguously in `hay`.
Mirrors Python `hay.find(needle) >= 0`. -/
def listContainsSub : List Char → List Char → Bool
  | [], n => n.isEmpty
  | h :: hs, n => listStarts (h :: hs) n || listContainsSub hs n

/-- String containment, `hay.find(sub) >= 0` in the source. -/
def strContainsSub (hay sub : String) : Bool :=
  listContainsSub hay.data sub.data

/-- Characters strictly before the first `@`, or all of them when no `@`
occurs. -/
def charsBeforeAt : List Char → List Char
  | [] => []
  | c :: cs => if c = '@' then [] else c :: charsBeforeAt cs

/-- Modelled from the spec: `TenantLLMService.split_model_name_and_factory`
is not under `src/` (only its call sites are).  Per the spec's glossary
("Embedding-model family — model identifier with provider qualifier
stripped"), the provider qualifier is an `@factory` suffix and the family
is the part before it.  This model returns the piece before the first
`@`, or the whole identifier when no qualifier is present. -/
def embdFamily (s : String) : String :=
  ⟨charsBeforeAt s.data⟩

/-- A prompt template parameter: `{"key": ..., "optional": ...}`. -/
structure PromptParameter where
  key : String
  optional : Bool
deriving DecidableEq, Repr

/-- The request's nested `prompt` object after pydantic parsing with
`exclude_unset`: canonical fields declared on `PromptConfig` plus the
legacy names that arrive through `extra = "allow"`.  Every slot is
optional — only caller-supplied keys are present. -/
structure ExternalPrompt where
  system : Option String := none
  prologue : Option String := none
  parameters : Option (List PromptParameter) := none
  empty_response : Option String := none
  quote : Option Bool := none
  tts : Option Bool := none
  refine_multiturn : Option Bool := none
  similarity_threshold : Option ℚ := none
  vector_similarity_weight : Option ℚ := none
  top_n : Option Int := none
  rerank_id : Option String := none
  top_k : Option Int := none
  variables_ : Option (List PromptParameter) := none
  opener : Option String := none
  show_quote : Option Bool := none
  prompt : Option String := none
  rerank_model : Option String := none
  keywords_similarity_weight : Option ℚ := none
deriving DecidableEq, Repr

/-- The prompt dict after the `key_mapping` rename loop (chat.py lines
152-154): for each pair `(new_key, old_key)`, when the legacy key is
present its value overwrites the canonical slot (`prompt[new_key] =
prompt.pop(old_key)`). -/
structure CanonPrompt where
  system : Option String
  prologue : Option String
  parameters : Option (List PromptParameter)
  empty_response : Option String
  quote : Option Bool
  tts : Option Bool
  refine_multiturn : Option Bool
  similarity_threshold : Option ℚ
  vector_similarity_weight : Option ℚ
  top_n : Option Int
  rerank_id : Option String
  top_k : Option Int
deriving DecidableEq, Repr

/-- The `key_mapping` rename loop of `create_chat`/`update_chat`. -/
def renamePromptKeys (e : ExternalPrompt) : CanonPrompt where
  parameters := firstSome e.variables_ e.parameters
  prologue := firstSome e.opener e.prologue
  quote := firstSome e.show_quote e.quote
  system := firstSome e.prompt e.system
  rerank_id := firstSome e.rerank_model e.rerank_id
  vector_similarity_weight :=
    firstSome e.keywords_similarity_weight e.vector_similarity_weight
  empty_response := e.empty_response
  tts := e.tts
  refine_multiturn := e.refine_multiturn
  similarity_threshold := e.similarity_threshold
  top_n := e.top_n
  top_k := e.top_k

/-- The stored `prompt_config` dict (canonical keys; a key may be absent).
The update path hoists only four scalars out of the prompt, so a supplied
`top_k` stays inside the stored config there; the create path hoists it
out, leaving `top_k := none` here. -/
structure PromptConfigRec where
  system : Option String := none
  prologue : Option String := none
  parameters : Option (List PromptParameter) := none
  empty_response : Option String := none
  quote : Option Bool := none
  tts : Option Bool := none
  refine_multiturn : Option Bool := none
  top_k : Option Int := none
deriving DecidableEq, Repr

/-- The `default_prompt["system"]` template literal of `create_chat`. -/
def defaultSystem : String :=
  "You are an intelligent assistant. Please summarize the content of the knowledge base to answer the question. Please list the data in the knowledge base and answer in detail. When all knowledge base content is irrelevant to the question, your answer must include the sentence \"The answer you are looking for is not found in the knowledge base!\" Answers need to consider chat history.\n          Here is the knowledge base:\n          \x7bknowledge\x7d\n          The above is the knowledge base."

/-- `default_prompt["prologue"]`. -/
def defaultPrologue : String := "Hi! I\x27m your assistant, what can I do for you?"

/-- `default_prompt["empty_response"]`. -/
def defaultEmptyResponse : String :=
  "Sorry! No relevant content was found in the knowledge base!"

/-- `default_prompt["parameters"]`. -/
def defaultParameters : List PromptParameter :=
  [{ key := "knowledge", optional := false }]

/-- The defaults merge of `create_chat` (lines 209-215): for each key in
`key_list_2`, keep the supplied value unless the key is absent, or the key
is `system` and the supplied value is falsy (empty). -/
def applyDefaults (pc : PromptConfigRec) : PromptConfigRec where
  system := some (match pc.system with
    | some s => if s = "" then defaultSystem else s
    | none => defaultSystem)
  prologue := some (pc.prologue.getD defaultPrologue)
  parameters := some (pc.parameters.getD defaultParameters)
  empty_response := some (pc.empty_response.getD defaultEmptyResponse)
  quote := some (pc.quote.getD true)
  tts := some (pc.tts.getD false)
  refine_multiturn := some (pc.refine_multiturn.getD true)
  top_k := pc.top_k

/-- The template-parameter check of `create_chat` (lines 218-223): the
first parameter with `optional = false` whose `\x7bkey\x7d` placeholder
does not occur in the system template, if any. -/
def validateTemplateParameters (system : String) :
    List PromptParameter → Option String
  | [] => none
  | p :: rest =>
    if p.optional then validateTemplateParameters system rest
    else if strContainsSub system ("\x7b" ++ p.key ++ "\x7d") then
      validateTemplateParameters system rest
    else some p.key

/-- Error classes of the handlers: `paramErr` models
`get_error_data_result` (code `PARAM_ERROR`), `authErr` models the one
`get_result(code=settings.RetCode.AUTHENTICATION_ERROR)` call site. -/
inductive ApiError where
  | paramErr (msg : String)
  | authErr (msg : String)
deriving DecidableEq, Repr

/-- The exact message of the embedding-model-mismatch rejection (the
source literal carries a stray closing double quote). -/
def mismatchMsg : String := "Datasets use different embedding models.\""

/-- A knowledge base as seen through `KnowledgebaseService`. -/
structure Kb where
  id : String
  accessible : Bool
  chunk_num : Nat
  embd_id : String
deriving DecidableEq, Repr

/-- A dialog row as seen through `DialogService.query` (one tenant's
view; `valid` is `status == StatusEnum.VALID`). -/
structure Dialog where
  id : String
  name : String
  valid : Bool
deriving DecidableEq, Repr

/-- The persisted dialog record assembled by `create_chat` and mutated by
`update_chat` (the columns the claims touch; unrelated columns and the
opaque `llm_setting` sampling map are omitted). -/
structure DialogRecord where
  id : String
  name : String
  description : String
  icon : String
  kb_ids : List String
  llm_id : String
  prompt_config : PromptConfigRec
  similarity_threshold : Option ℚ
  vector_similarity_weight : Option ℚ
  top_n : Int
  top_k : Int
  rerank_id : String
deriving DecidableEq, Repr

/-- The per-tenant external world: knowledge bases, the tenant's chat and
rerank model registries, the tenant row, existing dialogs, the stored
records behind `DialogService.get_by_id`, and the uuid the next create
uses. -/
structure Env where
  kbs : List Kb
  chat_models : List String
  rerank_models : List String
  tenant_exists : Bool
  tenant_llm_id : String
  dialogs : List Dialog
  records : List DialogRecord
  new_id : String

/-- `KnowledgebaseService.query(id=kb_id)` (first hit). -/
def kbLookup (env : Env) (kb_id : String) : Option Kb :=
  env.kbs.find? (fun kb => kb.id == kb_id)

/-- The per-id loop shared by both handlers: ownership
(`KnowledgebaseService.accessible`) then non-zero `chunk_num`; first
failure wins.  An unknown id is inaccessible. -/
def checkKbList (env : Env) : List String → Option ApiError
  | [] => none
  | kb_id :: rest =>
    match kbLookup env kb_id with
    | none =>
      some (ApiError.paramErr ("You don\x27t own the dataset " ++ kb_id))
    | some kb =>
      if !kb.accessible then
        some (ApiError.paramErr ("You don\x27t own the dataset " ++ kb_id))
      else if kb.chunk_num = 0 then
        some (ApiError.paramErr ("The dataset " ++ kb_id ++ " doesn\x27t own parsed file"))
      else checkKbList env rest

/-- Embedding-model families of the resolved knowledge bases
(`TenantLLMService.split_model_name_and_factory(kb.embd_id)[0]`). -/
def embdFamilies (env : Env) (ids : List String) : List String :=
  (ids.filterMap (kbLookup env)).map (fun kb => embdFamily kb.embd_id)

/-- Dataset validation of `create_chat` (lines 104-121): falsy ids are
filtered out, each remaining id is checked, then the family count must
not exceed one (`len(embd_count) > 1` rejects). -/
def validateDatasetsCreate (env : Env) (dataset_ids : List String) :
    Except ApiError (List String) :=
  let ids := dataset_ids.filter (fun i => i ≠ "")
  match checkKbList env ids with
  | some e => .error e
  | none =>
    let embd_ids := if ids.isEmpty then [] else embdFamilies env ids
    if embd_ids.eraseDups.length > 1 then .error (.authErr mismatchMsg)
    else .ok ids

/-- Dataset validation of `update_chat` (lines 294-312): runs only when
`dataset_ids` was supplied; ids are not filtered; the family count must
be exactly one (`len(embd_count) != 1` rejects — so a supplied empty list
is rejected here, unlike on the create path). -/
def validateDatasetsUpdate (env : Env) :
    Option (List String) → Except ApiError (Option (List String))
  | none => .ok none
  | some ids =>
    match checkKbList env ids with
    | some e => .error e
    | none =>
      if (embdFamilies env ids).eraseDups.length ≠ 1 then
        .error (.authErr mismatchMsg)
      else .ok (some ids)

/-- The `llm` request object; the sampling parameters ride along opaquely
and only `model_name` (required on the pydantic model, hence always
present when `llm` is) is consulted by the handlers. -/
structure LLMIn where
  model_name : String
deriving DecidableEq, Repr

/-- `CreateChatRequest` after `dict(exclude_unset=True)`: only
caller-supplied keys are present.  `name` is a required field, so it is
always present; `dataset_ids` defaults to `[]` and `req.get("dataset_ids",
[])` makes the absent and empty cases identical, so it is a plain list.
`tenant_id` can arrive through `extra = "allow"` and is rejected when
truthy. -/
structure CreateChatRequest where
  name : String
  description : Option String := none
  llm : Option LLMIn := none
  dataset_ids : List String := []
  prompt : Option ExternalPrompt := none
  avatar : Option String := none
  similarity_threshold : Option ℚ := none
  vector_similarity_weight : Option ℚ := none
  top_n : Option Int := none
  top_k : Option Int := none
  rerank_id : Option String := none
  tenant_id : Option String := none

/-- `UpdateChatRequest` after `dict(exclude_unset=True)`.  The
`show_quotation`/`do_refer` conversion and `avatar` assignment touch
attributes outside the modelled columns and do not interact with any
claim, so they are omitted. -/
structure UpdateChatRequest where
  name : Option String := none
  description : Option String := none
  llm : Option LLMIn := none
  dataset_ids : Option (List String) := none
  prompt : Option ExternalPrompt := none

/-- The two built-in reranker identifiers accepted without a lookup. -/
def rerankWhitelist : List String :=
  ["BAAI/bge-reranker-v2-m3", "maidalun1020/bce-reranker-base_v1"]

/-- `create_chat` (`src/api/routers/sdk/chat.py` lines 91-227, up to and
including `DialogService.save`): dataset validation, llm resolution,
tenant check, prompt rename + hoist of the five scalars, presence-based
top-level defaults, rerank validation, tenant default llm, name checks,
`tenant_id` guard, prompt defaults merge, template-parameter check, then
the record handed to `save`.  `.error` means the handler returned before
any write. -/
def create_chat (env : Env) (req : CreateChatRequest) :
    Except ApiError DialogRecord :=
  match validateDatasetsCreate env req.dataset_ids with
  | .error e => .error e
  | .ok ids =>
  -- llm processing (lines 126-132)
  let llmCheck : Except ApiError (Option String) :=
    match req.llm with
    | some l =>
      if env.chat_models.contains l.model_name then .ok (some l.model_name)
      else .error (.paramErr
        ("`model_name` " ++ l.model_name ++ " doesn\x27t exist"))
    | none => .ok none
  match llmCheck with
  | .error e => .error e
  | .ok llm_id₀ =>
  -- tenant lookup (lines 135-137)
  if !env.tenant_exists then .error (.paramErr "Tenant not found!")
  else
  -- prompt rename + hoist (lines 140-158); a prompt-carried scalar
  -- overwrites the top-level one, which otherwise survives
  let c : CanonPrompt :=
    match req.prompt with
    | some p => renamePromptKeys p
    | none =>
      { system := none, prologue := none, parameters := none,
        empty_response := none, quote := none, tts := none,
        refine_multiturn := none, similarity_threshold := none,
        vector_similarity_weight := none, top_n := none,
        rerank_id := none, top_k := none }
  let simTh := firstSome c.similarity_threshold req.similarity_threshold
  let vsw := firstSome c.vector_similarity_weight req.vector_similarity_weight
  let topN := firstSome c.top_n req.top_n
  let rer := firstSome c.rerank_id req.rerank_id
  let topK := firstSome c.top_k req.top_k
  let pcIn : PromptConfigRec :=
    { system := c.system, prologue := c.prologue,
      parameters := c.parameters, empty_response := c.empty_response,
      quote := c.quote, tts := c.tts,
      refine_multiturn := c.refine_multiturn, top_k := none }
  -- presence-based top-level defaults (lines 160-166)
  let description := req.description.getD "A helpful Assistant"
  let icon := req.avatar.getD ""
  let top_n := topN.getD 6
  let top_k := topK.getD 1024
  let rerank_id := rer.getD ""
  -- rerank validation (lines 169-176)
  if rerank_id ≠ "" ∧ ¬ rerankWhitelist.contains rerank_id ∧
      ¬ env.rerank_models.contains rerank_id then
    .error (.paramErr ("`rerank_model` " ++ rerank_id ++ " doesn\x27t exist"))
  else
  -- tenant default llm (lines 179-180); `if not req.get("llm_id")`
  let llm_id :=
    match llm_id₀ with
    | some l => if l = "" then env.tenant_llm_id else l
    | none => env.tenant_llm_id
  -- name checks (lines 183-186)
  if req.name = "" then .error (.paramErr "`name` is required.")
  else if env.dialogs.any (fun d => d.name == req.name && d.valid) then
    .error (.paramErr "Duplicated chat name in creating chat.")
  -- tenant_id guard (lines 189-190)
  else if (req.tenant_id.getD "") ≠ "" then
    .error (.paramErr "`tenant_id` must not be provided.")
  else
  -- prompt defaults merge (lines 193-215)
  let pc := applyDefaults pcIn
  -- template-parameter check (lines 218-223)
  match validateTemplateParameters (pc.system.getD "")
      (pc.parameters.getD []) with
  | some k =>
    .error (.paramErr ("Parameter \x27" ++ k ++ "\x27 is not used"))
  | none =>
    .ok { id := env.new_id, name := req.name, description := description,
          icon := icon, kb_ids := ids, llm_id := llm_id,
          prompt_config := pc, similarity_threshold := simTh,
          vector_similarity_weight := vsw, top_n := top_n,
          top_k := top_k, rerank_id := rerank_id }

/-- `update_chat` (`src/api/routers/sdk/chat.py` lines 272-364, up to and
including `res.save()`): ownership check, dataset validation (only when
`dataset_ids` was supplied), llm resolution, tenant check, prompt rename
+ hoist of four scalars (`top_k` is not hoisted here), then the
field-by-field `setattr` merge onto the stored record.  There is no name
check of any kind on this path. -/
def update_chat (env : Env) (chat_id : String) (req : UpdateChatRequest) :
    Except ApiError DialogRecord :=
  -- ownership (line 283)
  if !env.dialogs.any (fun d => d.id == chat_id && d.valid) then
    .error (.paramErr "You do not own the chat")
  else
  match validateDatasetsUpdate env req.dataset_ids with
  | .error e => .error e
  | .ok kbIds =>
  let llmCheck : Except ApiError (Option String) :=
    match req.llm with
    | some l =>
      if env.chat_models.contains l.model_name then .ok (some l.model_name)
      else .error (.paramErr
        ("`model_name` " ++ l.model_name ++ " doesn\x27t exist"))
    | none => .ok none
  match llmCheck with
  | .error e => .error e
  | .ok llmId =>
  if !env.tenant_exists then .error (.paramErr "Tenant not found!")
  else
  -- prompt rename + hoist (lines 329-350); `key_list` here lacks `top_k`
  let hoisted :
      Option (PromptConfigRec × Option ℚ × Option ℚ × Option Int × Option String) :=
    match req.prompt with
    | some p =>
      let c := renamePromptKeys p
      some ({ system := c.system, prologue := c.prologue,
              parameters := c.parameters,
              empty_response := c.empty_response, quote := c.quote,
              tts := c.tts, refine_multiturn := c.refine_multiturn,
              top_k := c.top_k },
            c.similarity_threshold, c.vector_similarity_weight,
            c.top_n, c.rerank_id)
    | none => none
  -- `DialogService.get_by_id` (line 353)
  match env.records.find? (fun r => r.id == chat_id) with
  | none => .error (.paramErr "Chat not found!")
  | some r =>
    -- `setattr` merge (lines 358-360): supplied keys overwrite columns
    .ok { r with
      name := req.name.getD r.name,
      description := req.description.getD r.description,
      kb_ids := kbIds.getD r.kb_ids,
      llm_id := llmId.getD r.llm_id,
      prompt_config := (hoisted.map Prod.fst).getD r.prompt_config,
      similarity_threshold :=
        firstSome ((hoisted.map (fun h => h.2.1)).getD none)
          r.similarity_threshold,
      vector_similarity_weight :=
        firstSome ((hoisted.map (fun h => h.2.2.1)).getD none)
          r.vector_similarity_weight,
      top_n := ((hoisted.map (fun h => h.2.2.2.1)).getD none).getD r.top_n,
      rerank_id :=
        ((hoisted.map (fun h => h.2.2.2.2)).getD none).getD r.rerank_id }

/-- The external prompt object of a formatted response: the renamed
`prompt_config` entries plus the four re-nested scalars.  `top_k` can
appear only through a `prompt_config` that retained it (the update path);
the create path hoists it out and deletes it without re-nesting. -/
structure PromptOut where
  variables_ : Option (List PromptParameter)
  opener : Option String
  show_quote : Option Bool
  tts : Option Bool
  refine_multiturn : Option Bool
  empty_response : Option String
  prompt : Option String
  top_k : Option Int
  similarity_threshold : Option ℚ
  keywords_similarity_weight : Option ℚ
  top_n : Int
  rerank_model : String
deriving DecidableEq, Repr

/-- A formatted chat response body (the translated fields). -/
structure ChatOut where
  id : String
  name : String
  description : String
  avatar : String
  dataset_ids : List String
  model_name : String
  prompt : PromptOut
deriving DecidableEq, Repr

/-- The response formatting shared by `create_chat` (lines 236-265),
`update_chat` (lines 369-398) and `list_chats`: rename `prompt_config`
keys back to legacy names, re-nest `similarity_threshold`,
`keywords_similarity_weight = 1 - vector_similarity_weight`, `top_n` and
`rerank_model` into the prompt object, delete the hoisted top-level keys,
merge `llm_id` into `llm.model_name` and expose `icon` as `avatar`.  The
create path passes the request's `dataset_ids`; the update path passes
the record's `kb_ids`. -/
def format_chat_response (rec : DialogRecord) (dataset_ids : List String) :
    ChatOut where
  id := rec.id
  name := rec.name
  description := rec.description
  avatar := rec.icon
  dataset_ids := dataset_ids
  model_name := rec.llm_id
  prompt :=
    { variables_ := rec.prompt_config.parameters,
      opener := rec.prompt_config.prologue,
      show_quote := rec.prompt_config.quote,
      tts := rec.prompt_config.tts,
      refine_multiturn := rec.prompt_config.refine_multiturn,
      empty_response := rec.prompt_config.empty_response,
      prompt := rec.prompt_config.system,
      top_k := rec.prompt_config.top_k,
      similarity_threshold := rec.similarity_threshold,
      keywords_similarity_weight :=
        rec.vector_similarity_weight.map (fun w => 1 - w),
      top_n := rec.top_n,
      rerank_model := rec.rerank_id }

/-! ### The OpenAI-compatible completion adapter (`src/api/routers/chat.py`) -/

/-- A request message. -/
structure Msg where
  role : String
  content : String
deriving DecidableEq, Repr

/-- The usage block of a completion response. -/
structure Usage where
  prompt_tokens : Nat
  completion_tokens : Nat
  total_tokens : Nat
deriving DecidableEq, Repr

/-- A single (non-streamed) completion object; `content` is
`choices[0].message.content`. -/
structure CompletionObj where
  id : String
  object : String
  created : Nat
  model : String
  content : String
  finish_reason : String
  usage : Usage
deriving DecidableEq, Repr

/-- One streamed chunk; `delta` is `choices[0].delta.content`, `usage` is
present only on the final chunk. -/
structure Chunk where
  id : String
  object : String
  created : Nat
  model : String
  delta : String
  finish_reason : Option String
  usage : Option Usage
deriving DecidableEq, Repr

/-- The observable outcome of `agents_completion_openai_compatibility`:
an error envelope (`get_error_response`, code `PARAM_ERROR`), one JSON
object, or a streamed chunk sequence. -/
inductive CompletionResult where
  | err (msg : String)
  | single (obj : CompletionObj)
  | streamed (chunks : List Chunk)
deriving DecidableEq, Repr

/-- Modelled from the spec: `completionOpenAI`
(`api.db.services.canvas_service`) is not under `src/`; only its call
sites are.  Per spec §4.4 the engine is a deterministic, finite producer
of text deltas, modelled as a function from the question to the delta
list, and in streaming mode each delta becomes one chunk with fixed id,
fixed `created`, echoed model and null `finish_reason`, followed by
exactly one final chunk with empty delta, `finish_reason = "stop"` and
`usage = \x7bprompt_tokens, completion_tokens, total_tokens\x7d`, where
`completion_tokens` is the tokenizer count over the concatenation of all
emitted deltas and `prompt_tokens` is the filtered-message sum computed
in step 1. -/
def completionOpenAI_stream_chunks (enc : String → Nat)
    (engine : String → List String) (agent_id : String) (created : Nat)
    (model : String) (prompt_tokens : Nat) (question : String) :
    List Chunk :=
  let deltas := engine question
  let completion := enc (String.join deltas)
  deltas.map (fun d =>
    { id := agent_id, object := "chat.completion.chunk", created := created,
      model := model, delta := d, finish_reason := none, usage := none })
  ++ [{ id := agent_id, object := "chat.completion.chunk",
        created := created, model := model, delta := "",
        finish_reason := some "stop",
        usage := some { prompt_tokens := prompt_tokens,
                        completion_tokens := completion,
                        total_tokens := prompt_tokens + completion } }]

/-- Modelled from the spec: the non-streaming mode of `completionOpenAI`
(not under `src/`) drives the same producer to completion internally and
yields one object equivalent to the aggregated final state — same
id/created/model/finish_reason/usage shape (spec §4.4 step 5). -/
def completionOpenAI_single (enc : String → Nat)
    (engine : String → List String) (agent_id : String) (created : Nat)
    (model : String) (prompt_tokens : Nat) (question : String) :
    CompletionObj :=
  let deltas := engine question
  let completion := enc (String.join deltas)
  { id := agent_id, object := "chat.completion", created := created,
    model := model, content := String.join deltas,
    finish_reason := "stop",
    usage := { prompt_tokens := prompt_tokens,
               completion_tokens := completion,
               total_tokens := prompt_tokens + completion } }

/-- The synthetic assistant text of the empty-filtered-list path. -/
def noValidMsg : String := "No valid messages found (user or assistant)."

/-- `agents_completion_openai_compatibility`
(`src/api/routers/chat.py` lines 33-107).  `enc` is the `tiktoken`
`cl100k_base` token counter (external, kept abstract), `engine` the
inference engine's delta producer (spec-modelled, see above), `now` the
`int(time.time())` timestamp, `owns_agent` the result of
`UserCanvasService.query(user_id, id=agent_id)`. -/
def agents_completion (enc : String → Nat) (engine : String → List String)
    (now : Nat) (agent_id : String) (owns_agent : Bool) (model : String)
    (messages : List Msg) (stream : Bool) : CompletionResult :=
  if messages.isEmpty then
    .err "You must provide at least one message."
  else if !owns_agent then
    .err ("You don\x27t own the agent " ++ agent_id)
  else
    let filtered := messages.filter
      (fun m => m.role == "user" || m.role == "assistant")
    let prompt_tokens := (filtered.map (fun m => enc m.content)).sum
    if filtered.isEmpty then
      .single { id := agent_id, object := "chat.completion", created := now,
                model := model, content := noValidMsg,
                finish_reason := "stop",
                usage := { prompt_tokens := prompt_tokens,
                           completion_tokens := enc noValidMsg,
                           total_tokens := prompt_tokens + enc noValidMsg } }
    else
      let question :=
        ((messages.reverse.find? (fun m => m.role == "user")).map
          Msg.content).getD ""
      if stream then
        .streamed (completionOpenAI_stream_chunks enc engine agent_id now
          model prompt_tokens question)
      else
        .single (completionOpenAI_single enc engine agent_id now model
          prompt_tokens question)

/-- Aggregated text of a streamed result (concatenation of all deltas). -/
def aggregatedContent : CompletionResult → Option String
  | .streamed cs => some (String.join (cs.map Chunk.delta))
  | _ => none

/-- The usage of a result's final state: the last chunk's usage for a
stream, the object's usage for a single response. -/
def finalUsage : CompletionResult → Option Usage
  | .streamed cs => cs.getLast?.bind Chunk.usage
  | .single o => some o.usage
  | .err _ => none

/-- The content of a single (non-streamed) result. -/
def singleContent : CompletionResult → Option String
  | .single o => some o.content
  | _ => none

/-! ### Helper lemmas -/

/-- Appending an empty final delta does not change the aggregated text. -/
theorem join_concat_empty (l : List String) :
    String.join (l ++ [""]) = String.join l := by
  rw [String.join_eq, String.join_eq]
  simp

/-- With no fallback present, `firstSome` is the first slot. -/
theorem firstSome_none {α : Type} (a : Option α) : firstSome a none = a := by
  cases a <;> rfl

/-! ### Concrete instances used by counterexamples and witnesses -/

/-- An empty-world environment (no knowledge bases, no existing dialogs). -/
def envC1 : Env :=
  { kbs := [], chat_models := [], rerank_models := [], tenant_exists := true,
    tenant_llm_id := "m", dialogs := [], records := [], new_id := "u" }

/-- A create request whose prompt carries `top_k = 7` (and a directly
supplied system template plus an empty parameter list, so every
validation passes). -/
def reqC1 : CreateChatRequest :=
  { name := "chat1",
    prompt := some
      { prompt := some "s",
        variables_ := some ([] : List PromptParameter),
        top_k := some 7 } }

/-- A stored record for the dataset-validation counterexample. -/
def recC3 : DialogRecord :=
  { id := "d1", name := "chat1", description := "A helpful Assistant",
    icon := "", kb_ids := [], llm_id := "m", prompt_config := {},
    similarity_threshold := none, vector_similarity_weight := none,
    top_n := 6, top_k := 1024, rerank_id := "" }

/-- An environment owning one valid dialog `d1`. -/
def envC3 : Env :=
  { kbs := [], chat_models := [], rerank_models := [], tenant_exists := true,
    tenant_llm_id := "m", dialogs := [⟨"d1", "chat1", true⟩],
    records := [recC3], new_id := "u" }

/-- An environment with two one-chunk knowledge bases whose embedding
models belong to different families (`bge` vs `bce`) and a third sharing
the first family. -/
def envC4 : Env :=
  { kbs := [⟨"A", true, 1, "bge@X"⟩, ⟨"B", true, 1, "bce@Y"⟩,
            ⟨"C", true, 2, "bge@Z"⟩],
    chat_models := [], rerank_models := [], tenant_exists := true,
    tenant_llm_id := "m", dialogs := [], records := [], new_id := "u" }

/-- The stored record `d2` for the name-uniqueness counterexample. -/
def recC8 : DialogRecord :=
  { id := "d2", name := "B", description := "A helpful Assistant", icon := "",
    kb_ids := [], llm_id := "m", prompt_config := {},
    similarity_threshold := none, vector_similarity_weight := none,
    top_n := 6, top_k := 1024, rerank_id := "" }

/-- An environment owning two valid dialogs named `A` and `B`. -/
def envC8 : Env :=
  { kbs := [], chat_models := [], rerank_models := [], tenant_exists := true,
    tenant_llm_id := "m",
    dialogs := [⟨"d1", "A", true⟩, ⟨"d2", "B", true⟩],
    records := [recC8], new_id := "u" }

/-- The stored record `d1` for the name-uniqueness witness. -/
def recW8 : DialogRecord :=
  { id := "d1", name := "A", description := "A helpful Assistant", icon := "",
    kb_ids := [], llm_id := "m", prompt_config := {},
    similarity_threshold := none, vector_similarity_weight := none,
    top_n := 6, top_k := 1024, rerank_id := "" }

/-- An environment owning one valid dialog named `A`. -/
def envW8 : Env :=
  { kbs := [], chat_models := [], rerank_models := [], tenant_exists := true,
    tenant_llm_id := "m", dialogs := [⟨"d1", "A", true⟩],
    records := [recW8], new_id := "u" }

/-! ### Claim theorems -/

/-- Claim C2: the template-parameter check fails iff some parameter with
`optional = false` has the literal `\x7bkey\x7d` substring absent from the
system template; when it fails it names the first such non-optional
parameter; and a successful chat creation implies the stored record
passed this check. -/
theorem claim_C2 (T : String) (P : List PromptParameter) :
    ((validateTemplateParameters T P).isSome ↔
      ∃ p ∈ P, p.optional = false ∧
        strContainsSub T ("\x7b" ++ p.key ++ "\x7d") = false) ∧
    validateTemplateParameters T P =
      (P.find? (fun p => !p.optional &&
        !strContainsSub T ("\x7b" ++ p.key ++ "\x7d"))).map
          PromptParameter.key ∧
    ∀ (env : Env) (req : CreateChatRequest) (rec : DialogRecord),
      create_chat env req = .ok rec →
      validateTemplateParameters (rec.prompt_config.system.getD "")
        (rec.prompt_config.parameters.getD []) = none := by
  have main : ((validateTemplateParameters T P).isSome ↔
      ∃ p ∈ P, p.optional = false ∧
        strContainsSub T ("\x7b" ++ p.key ++ "\x7d") = false) ∧
      validateTemplateParameters T P =
        (P.find? (fun p => !p.optional &&
          !strContainsSub T ("\x7b" ++ p.key ++ "\x7d"))).map
            PromptParameter.key := by
    induction P with
    | nil => simp [validateTemplateParameters]
    | cons p rest ih =>
      unfold validateTemplateParameters
      rw [List.find?_cons]
      by_cases hopt : p.optional
      · simp [hopt, ih.1, ih.2]
      · have hopt' : p.optional = false := by simpa using hopt
        by_cases hsub : strContainsSub T ("\x7b" ++ p.key ++ "\x7d")
        · simp [hopt', hsub, ih.1, ih.2]
        · have hsub' : strContainsSub T ("\x7b" ++ p.key ++ "\x7d") = false := by
            simpa using hsub
          simp [hopt', hsub']
  refine ⟨main.1, main.2, ?_⟩
  intro env req rec h
  simp only [create_chat] at h
  repeat' split at h
  all_goals (cases h)
  all_goals simp_all

/-- Claim C2, witnessed: the spec's own scenario — the check passes for a
template referencing `\x7bknowledge\x7d` with the single non-optional
parameter `knowledge`, and fails once a non-optional `history` parameter
is added. -/
theorem claim_C2_witness :
    validateTemplateParameters "Answer using \x7bknowledge\x7d."
      [⟨"knowledge", false⟩] = none ∧
    (validateTemplateParameters "Answer using \x7bknowledge\x7d."
      [⟨"knowledge", false⟩, ⟨"history", false⟩]).isSome = true := by
  constructor
  · rw [(claim_C2 "Answer using \x7bknowledge\x7d."
      [⟨"knowledge", false⟩]).2.1]
    decide
  · exact (claim_C2 "Answer using \x7bknowledge\x7d."
      [⟨"knowledge", false⟩, ⟨"history", false⟩]).1.mpr (by decide)

/-- Claim C3, counterexample: on the update path a supplied empty
`dataset_ids` list is rejected with the embedding-mismatch error (the
`len(embd_count) != 1` test fails on zero families), while the same
environment's create path accepts the empty list — refuting the claim
that the update path skips the check exactly as the create path does. -/
theorem claim_C3_counterexample :
    update_chat envC3 "d1" { dataset_ids := some [] } =
      .error (.authErr mismatchMsg) ∧
    validateDatasetsCreate envC3 [] = .ok [] := ⟨rfl, rfl⟩

/-- Claim C3, amended: for every environment, the create path accepts an
empty `dataset_ids` list and skips the embedding-family check; the update
path rejects a supplied empty list with the mismatch error (its
`!= 1` family-count test fails on zero families); only an omitted
`dataset_ids` field skips dataset validation on update. -/
theorem claim_C3_amended (env : Env) :
    validateDatasetsCreate env [] = .ok [] ∧
    validateDatasetsUpdate env (some []) = .error (.authErr mismatchMsg) ∧
    validateDatasetsUpdate env none = .ok none :=
  ⟨rfl, rfl, rfl⟩

/-- Claim C4: for a non-empty dataset list whose per-id checks pass, more
than one distinct embedding-model family makes both create and update
fail with the mismatch message under the authentication-error class
before anything is written, while exactly one family passes the dataset
check on both paths. -/
theorem claim_C4 (env : Env) (ids : List String)
    (hne : ids ≠ [])
    (hnf : ∀ i ∈ ids, i ≠ "")
    (hkb : checkKbList env ids = none) :
    ((embdFamilies env ids).eraseDups.length > 1 →
      (∀ req : CreateChatRequest, req.dataset_ids = ids →
        create_chat env req = .error (.authErr mismatchMsg)) ∧
      (∀ (chat_id : String) (req : UpdateChatRequest),
        env.dialogs.any (fun d => d.id == chat_id && d.valid) = true →
        req.dataset_ids = some ids →
        update_chat env chat_id req = .error (.authErr mismatchMsg))) ∧
    ((embdFamilies env ids).eraseDups.length = 1 →
      validateDatasetsCreate env ids = .ok ids ∧
      validateDatasetsUpdate env (some ids) = .ok (some ids)) := by
  have hfilter : ids.filter (fun i => i ≠ "") = ids :=
    List.filter_eq_self.mpr (fun a ha => by
      simpa using hnf a ha)
  have hemp : ids.isEmpty = false := by simpa [List.isEmpty_iff] using hne
  constructor
  · intro hgt
    have hvc : validateDatasetsCreate env ids =
        .error (.authErr mismatchMsg) := by
      simp only [validateDatasetsCreate, hfilter, hkb, hemp,
        Bool.false_eq_true, if_false]
      simp [hgt]
    have hvu : validateDatasetsUpdate env (some ids) =
        .error (.authErr mismatchMsg) := by
      have hne1 : (embdFamilies env ids).eraseDups.length ≠ 1 := by omega
      simp only [validateDatasetsUpdate, hkb]
      simp [hne1]
    constructor
    · intro req hreq
      simp only [create_chat, hreq, hvc]
    · intro chat_id req hown hds
      simp only [update_chat, hown, Bool.not_true, Bool.false_eq_true,
        if_false, hds, hvu]
  · intro heq
    have hngt : ¬ (embdFamilies env ids).eraseDups.length > 1 := by omega
    constructor
    · simp only [validateDatasetsCreate, hfilter, hkb, hemp,
        Bool.false_eq_true, if_false]
      simp [hngt]
    · simp only [validateDatasetsUpdate, hkb]
      simp [heq]

/-- Claim C4, witnessed: with knowledge bases `A` (family `bge`) and `B`
(family `bce`), creating over `["A", "B"]` is rejected with the mismatch
error, while the one-family list `["A", "C"]` passes the dataset
check. -/
theorem claim_C4_witness :
    create_chat envC4 { name := "c", dataset_ids := ["A", "B"] } =
      .error (.authErr mismatchMsg) ∧
    validateDatasetsCreate envC4 ["A", "C"] = .ok ["A", "C"] := by
  constructor
  · exact ((claim_C4 envC4 ["A", "B"] (by decide) (by decide) rfl).1
      (by decide)).1 { name := "c", dataset_ids := ["A", "B"] } rfl
  · exact ((claim_C4 envC4 ["A", "C"] (by decide) (by decide) rfl).2
      (by decide)).1

/-- Claim C5: when the request's messages are non-empty but none has role
`user` or `assistant`, the endpoint returns a single non-streamed
response whose content is exactly the synthetic text with
`finish_reason = "stop"` and `completion_tokens` equal to the tokenizer
count of that text — for every engine, so the inference engine is never
consulted. -/
theorem claim_C5 (enc : String → Nat) (engine : String → List String)
    (now : Nat) (agent_id model : String) (msgs : List Msg) (stream : Bool)
    (hne : msgs ≠ [])
    (hroles : ∀ m ∈ msgs, m.role ≠ "user" ∧ m.role ≠ "assistant") :
    agents_completion enc engine now agent_id true model msgs stream =
      .single { id := agent_id, object := "chat.completion", created := now,
                model := model, content := noValidMsg,
                finish_reason := "stop",
                usage := { prompt_tokens := 0,
                           completion_tokens := enc noValidMsg,
                           total_tokens := enc noValidMsg } } := by
  have hfil : msgs.filter
      (fun m => m.role == "user" || m.role == "assistant") = [] := by
    rw [List.filter_eq_nil_iff]
    intro m hm
    have h := hroles m hm
    simp [h.1, h.2]
  simp [agents_completion, hne, hfil]

/-- Claim C5, witnessed: the spec's scenario — a lone system message
yields the synthetic single response, for an engine that the run never
consults. -/
theorem claim_C5_witness :
    agents_completion String.length (fun _ => ["ignored"]) 0 "a" true "m"
      [{ role := "system", content := "x" }] true =
      .single { id := "a", object := "chat.completion", created := 0,
                model := "m", content := noValidMsg,
                finish_reason := "stop",
                usage := { prompt_tokens := 0,
                           completion_tokens := noValidMsg.length,
                           total_tokens := noValidMsg.length } } :=
  claim_C5 String.length (fun _ => ["ignored"]) 0 "a" "m"
    [{ role := "system", content := "x" }] true (by decide) (by decide)

/-- Claim C6: in every completion response the endpoint produces — the
synthetic single response, the aggregated non-streaming object, or the
final chunk of a stream — `total_tokens` is the sum of `prompt_tokens`
and `completion_tokens`, and `prompt_tokens` is the tokenizer sum over
the user/assistant-filtered messages. -/
theorem claim_C6 (enc : String → Nat) (engine : String → List String)
    (now : Nat) (agent_id : String) (owns : Bool) (model : String)
    (msgs : List Msg) (stream : Bool) :
    (∀ o, agents_completion enc engine now agent_id owns model msgs stream =
        .single o →
      o.usage.total_tokens =
        o.usage.prompt_tokens + o.usage.completion_tokens ∧
      o.usage.prompt_tokens =
        ((msgs.filter (fun m => m.role == "user" || m.role == "assistant")).map
          (fun m => enc m.content)).sum) ∧
    (∀ cs, agents_completion enc engine now agent_id owns model msgs stream =
        .streamed cs →
      ∀ c ∈ cs, ∀ u, c.usage = some u →
        u.total_tokens = u.prompt_tokens + u.completion_tokens ∧
        u.prompt_tokens =
          ((msgs.filter
            (fun m => m.role == "user" || m.role == "assistant")).map
            (fun m => enc m.content)).sum) := by
  constructor
  · intro o h
    simp only [agents_completion] at h
    split at h
    · cases h
    · split at h
      · cases h
      · split at h
        · cases h
          simp
        · split at h
          · cases h
          · cases h
            simp [completionOpenAI_single]
  · intro cs h c hc u hu
    simp only [agents_completion] at h
    split at h
    · cases h
    · split at h
      · cases h
      · split at h
        · cases h
        · split at h
          · cases h
            simp only [completionOpenAI_stream_chunks, List.mem_append,
              List.mem_map, List.mem_singleton] at hc
            rcases hc with ⟨d, _, rfl⟩ | rfl
            · cases hu
            · simp at hu
              subst hu
              simp
          · cases h

/-- Claim C6, witnessed: a concrete non-streaming run over one user
message with a two-token answer satisfies the usage sum with
`prompt_tokens` equal to the filtered tokenizer sum. -/
theorem claim_C6_witness :
    ({ id := "a", object := "chat.completion", created := 0, model := "m",
       content := "ab", finish_reason := "stop",
       usage := { prompt_tokens := 2, completion_tokens := 2,
                  total_tokens := 4 } } : CompletionObj).usage.total_tokens =
      ({ id := "a", object := "chat.completion", created := 0, model := "m",
         content := "ab", finish_reason := "stop",
         usage := { prompt_tokens := 2, completion_tokens := 2,
                    total_tokens := 4 } } : CompletionObj).usage.prompt_tokens +
      ({ id := "a", object := "chat.completion", created := 0, model := "m",
         content := "ab", finish_reason := "stop",
         usage := { prompt_tokens := 2, completion_tokens := 2,
                    total_tokens := 4 } } : CompletionObj).usage.completion_tokens ∧
    ({ id := "a", object := "chat.completion", created := 0, model := "m",
       content := "ab", finish_reason := "stop",
       usage := { prompt_tokens := 2, completion_tokens := 2,
                  total_tokens := 4 } } : CompletionObj).usage.prompt_tokens =
      ((([{ role := "user", content := "hi" }] : List Msg).filter
        (fun m => m.role == "user" || m.role == "assistant")).map
          (fun m => String.length m.content)).sum :=
  (claim_C6 String.length (fun _ => ["ab"]) 0 "a" true "m"
    [{ role := "user", content := "hi" }] false).1
    { id := "a", object := "chat.completion", created := 0, model := "m",
      content := "ab", finish_reason := "stop",
      usage := { prompt_tokens := 2, completion_tokens := 2,
                 total_tokens := 4 } } rfl

/-- Claim C7: for identical configuration, identical messages and the
same deterministic engine, the streaming run's aggregated content equals
the non-streaming run's content, their final usages are equal, and the
streaming run does reach a final usage. -/
theorem claim_C7 (enc : String → Nat) (engine : String → List String)
    (now : Nat) (agent_id model : String) (msgs : List Msg)
    (hne : msgs ≠ [])
    (hfil : msgs.filter
      (fun m => m.role == "user" || m.role == "assistant") ≠ []) :
    aggregatedContent
        (agents_completion enc engine now agent_id true model msgs true) =
      singleContent
        (agents_completion enc engine now agent_id true model msgs false) ∧
    finalUsage
        (agents_completion enc engine now agent_id true model msgs true) =
      finalUsage
        (agents_completion enc engine now agent_id true model msgs false) ∧
    (finalUsage
        (agents_completion enc engine now agent_id true model msgs
          true)).isSome = true := by
  have hne' : msgs.isEmpty = false := by
    simpa [List.isEmpty_iff] using hne
  have hfil' :
      (msgs.filter
        (fun m => m.role == "user" || m.role == "assistant")).isEmpty
        = false := by
    simpa [List.isEmpty_iff] using hfil
  refine ⟨?_, ?_, ?_⟩
  · simp only [agents_completion, hne', hfil', Bool.false_eq_true, if_false,
      Bool.not_true, if_true]
    simp [completionOpenAI_stream_chunks, completionOpenAI_single,
      aggregatedContent, singleContent, Function.comp_def, join_concat_empty]
  · simp only [agents_completion, hne', hfil', Bool.false_eq_true, if_false,
      Bool.not_true, if_true]
    simp [completionOpenAI_stream_chunks, completionOpenAI_single, finalUsage]
  · simp only [agents_completion, hne', hfil', Bool.false_eq_true, if_false,
      Bool.not_true, if_true]
    simp [completionOpenAI_stream_chunks, finalUsage]

/-- Claim C7, witnessed: a concrete two-delta engine run over one user
message has equal aggregated content and equal final usage in streaming
and non-streaming modes. -/
theorem claim_C7_witness :
    aggregatedContent
        (agents_completion String.length (fun _ => ["a", "b"]) 0 "x" true "m"
          [{ role := "user", content := "q" }] true) =
      singleContent
        (agents_completion String.length (fun _ => ["a", "b"]) 0 "x" true "m"
          [{ role := "user", content := "q" }] false) ∧
    finalUsage
        (agents_completion String.length (fun _ => ["a", "b"]) 0 "x" true "m"
          [{ role := "user", content := "q" }] true) =
      finalUsage
        (agents_completion String.length (fun _ => ["a", "b"]) 0 "x" true "m"
          [{ role := "user", content := "q" }] false) ∧
    (finalUsage
        (agents_completion String.length (fun _ => ["a", "b"]) 0 "x" true "m"
          [{ role := "user", content := "q" }] true)).isSome = true :=
  claim_C7 String.length (fun _ => ["a", "b"]) 0 "x" "m"
    [{ role := "user", content := "q" }] (by decide) (by decide)

/-- Claim C10: an empty messages list makes the endpoint return the
parameter-error envelope with the fixed message, before role filtering,
before the synthetic response and without consulting the engine — for
every engine, tokenizer, ownership flag and stream flag. -/
theorem claim_C10 (enc : String → Nat) (engine : String → List String)
    (now : Nat) (agent_id : String) (owns : Bool) (model : String)
    (stream : Bool) :
    agents_completion enc engine now agent_id owns model [] stream =
      .err "You must provide at least one message." := rfl

/-- Claim C1, counterexample: a prompt carrying `top_k = 7` passes every
validation, yet the encoded response's prompt carries no `top_k` at all —
the create path hoists `top_k` out of the prompt and deletes it from the
record view without re-nesting it, so `encode(decode(p))` differs from
`p` on the hoisted scalar `top_k`. -/
theorem claim_C1_counterexample :
    (create_chat envC1 reqC1).isOk = true ∧
    (create_chat envC1 reqC1).map
      (fun r => (format_chat_response r reqC1.dataset_ids).prompt.top_k) =
      .ok none ∧
    reqC1.prompt.map ExternalPrompt.top_k = some (some 7) := ⟨rfl, rfl, rfl⟩

set_option maxRecDepth 4000 in
/-- Claim C1, amended: for every external prompt that passes validation,
encoding the stored record back to the external shape equals the input on
the renamed pairs `parameters/variables`, `prologue/opener`,
`quote/show_quote`, `system/prompt`, `rerank_id/rerank_model` and on the
hoisted scalars `similarity_threshold`, `top_n`, `rerank_id` — but
`top_k`, though hoisted on ingestion, is dropped by the encoder (the
response prompt never carries it) — and `keywords_similarity_weight`
comes back as `1 - vector_similarity_weight`. -/
theorem claim_C1_amended (env : Env) (nm : String) (ds : List String)
    (vs : List PromptParameter) (op er sys rr : String) (q tt rm : Bool)
    (st w : ℚ) (n tk : Int)
    (hten : env.tenant_exists = true)
    (hsys : sys ≠ "")
    (hrer : rr = "" ∨ rr ∈ rerankWhitelist ∨ rr ∈ env.rerank_models)
    (hnm : nm ≠ "")
    (hdup : env.dialogs.any (fun d => d.name == nm && d.valid) = false)
    (htpl : validateTemplateParameters sys vs = none) :
    create_chat env
      { name := nm,
        prompt := some
          { variables_ := some vs, opener := some op,
            show_quote := some q, prompt := some sys,
            rerank_model := some rr,
            vector_similarity_weight := some w,
            similarity_threshold := some st,
            top_n := some n, top_k := some tk, empty_response := some er,
            tts := some tt, refine_multiturn := some rm } } =
      .ok { id := env.new_id, name := nm,
            description := "A helpful Assistant", icon := "", kb_ids := [],
            llm_id := env.tenant_llm_id,
            prompt_config :=
              { system := some sys, prologue := some op,
                parameters := some vs, empty_response := some er,
                quote := some q, tts := some tt, refine_multiturn := some rm,
                top_k := none },
            similarity_threshold := some st,
            vector_similarity_weight := some w, top_n := n, top_k := tk,
            rerank_id := rr } ∧
    (format_chat_response
      { id := env.new_id, name := nm,
        description := "A helpful Assistant", icon := "", kb_ids := [],
        llm_id := env.tenant_llm_id,
        prompt_config :=
          { system := some sys, prologue := some op,
            parameters := some vs, empty_response := some er,
            quote := some q, tts := some tt, refine_multiturn := some rm,
            top_k := none },
        similarity_threshold := some st,
        vector_similarity_weight := some w, top_n := n, top_k := tk,
        rerank_id := rr } ds).prompt =
      { variables_ := some vs, opener := some op, show_quote := some q,
        tts := some tt, refine_multiturn := some rm,
        empty_response := some er, prompt := some sys, top_k := none,
        similarity_threshold := some st,
        keywords_similarity_weight := some (1 - w), top_n := n,
        rerank_model := rr } := by
  have hrercond : ¬ (¬ rr = "" ∧ rr ∉ rerankWhitelist ∧
      rr ∉ env.rerank_models) := by
    rcases hrer with h | h | h
    · intro hc; exact hc.1 h
    · intro hc; exact hc.2.1 h
    · intro hc; exact hc.2.2 h
  have h0 : ([] : List String).eraseDups = [] := rfl
  constructor
  · simp only [create_chat, renamePromptKeys, firstSome, applyDefaults,
      validateDatasetsCreate, checkKbList, List.filter_nil,
      List.isEmpty_nil]
    simp [hten, hsys, hnm, hdup, htpl, hrercond, h0]
  · simp [format_chat_response]

/-- Claim C1, witnessed: a fully supplied prompt (system `s`, empty
parameter list, weight `1/4`, `top_k = 9`) creates successfully, so the
amended round-trip theorem applies to it. -/
theorem claim_C1_witness :
    (create_chat
      { kbs := [], chat_models := [], rerank_models := [],
        tenant_exists := true, tenant_llm_id := "m", dialogs := [],
        records := [], new_id := "u" }
      { name := "c",
        prompt := some
          { variables_ := some [], opener := some "o",
            show_quote := some false, prompt := some "s",
            rerank_model := some "",
            vector_similarity_weight := some ((1 : ℚ)/4),
            similarity_threshold := some ((1 : ℚ)/2),
            top_n := some 3, top_k := some 9, empty_response := some "e",
            tts := some false, refine_multiturn := some true } }).isOk =
      true := by
  rw [(claim_C1_amended
    { kbs := [], chat_models := [], rerank_models := [],
      tenant_exists := true, tenant_llm_id := "m", dialogs := [],
      records := [], new_id := "u" }
    "c" [] [] "o" "e" "s" "" false false true ((1 : ℚ)/2) ((1 : ℚ)/4) 3 9
    rfl (by decide) (Or.inl rfl) (by decide) rfl rfl).1]
  rfl

/-- Claim C8, counterexample: with two valid dialogs named `A` and `B` in
one tenant, updating dialog `d2` to the name `A` succeeds and writes the
duplicate name — the update path performs no name-uniqueness check, so
the invariant is not preserved by update. -/
theorem claim_C8_counterexample :
    (envC8.dialogs.any fun d => d.name == "A" && d.valid) = true ∧
    (update_chat envC8 "d2" { name := some "A" }).map DialogRecord.name =
      .ok "A" := ⟨rfl, rfl⟩

set_option maxRecDepth 4000 in
/-- Claim C8, amended: create rejects a name already borne by a valid
dialog of the tenant with the duplicate-name error and writes nothing,
while update performs no name-uniqueness check at all: whenever its other
validations pass it writes the supplied name unconditionally, duplicate
or not. -/
theorem claim_C8_amended :
    (∀ (env : Env) (req : CreateChatRequest),
      req.dataset_ids = [] → req.llm = none → req.prompt = none →
      req.rerank_id = none → req.tenant_id = none →
      env.tenant_exists = true → req.name ≠ "" →
      env.dialogs.any (fun d => d.name == req.name && d.valid) = true →
      create_chat env req =
        .error (.paramErr "Duplicated chat name in creating chat.")) ∧
    (∀ (env : Env) (chat_id : String) (req : UpdateChatRequest)
        (r : DialogRecord),
      env.dialogs.any (fun d => d.id == chat_id && d.valid) = true →
      req.dataset_ids = none → req.llm = none → req.prompt = none →
      env.tenant_exists = true →
      env.records.find? (fun x => x.id == chat_id) = some r →
      update_chat env chat_id req =
        .ok { r with name := req.name.getD r.name,
                     description := req.description.getD r.description }) := by
  constructor
  · intro env req hds hllm hprompt hrer htid hten hname hdup
    simp only [create_chat, hds, hllm, hprompt, hrer, htid, hten,
      validateDatasetsCreate, checkKbList, List.filter_nil, List.isEmpty_nil]
    simp [hname, hdup, firstSome]
    rfl
  · intro env chat_id req r hown hds hllm hprompt hten hfind
    simp only [update_chat, hown, hds, hllm, hprompt, hten, hfind,
      validateDatasetsUpdate, Bool.not_true, Bool.false_eq_true, if_false]
    simp [firstSome]

/-- Claim C8, witnessed: creating a chat named `A` in a tenant already
owning a valid dialog `A` is rejected with the duplicate-name error,
while updating that same dialog's name succeeds without any uniqueness
requirement. -/
theorem claim_C8_witness :
    create_chat envW8 { name := "A" } =
      .error (.paramErr "Duplicated chat name in creating chat.") ∧
    update_chat envW8 "d1" { name := some "other" } =
      .ok { recW8 with name := "other" } := by
  constructor
  · exact claim_C8_amended.1 envW8 { name := "A" }
      rfl rfl rfl rfl rfl rfl (by decide) rfl
  · exact claim_C8_amended.2 envW8 "d1" { name := some "other" } recW8
      rfl rfl rfl rfl rfl rfl

set_option maxRecDepth 4000 in
/-- Claim C9: on create, each canonical prompt field of the stored
configuration is the caller-supplied (renamed) value when present —
including supplied falsy values such as `quote = false` — and the fixed
default when the field is absent or when the field is `system` and the
supplied value is empty; the theorem exhibits the full stored record for
an arbitrary external prompt. -/
theorem claim_C9 (env : Env) (nm : String) (p : ExternalPrompt)
    (hten : env.tenant_exists = true)
    (hrer : ((renamePromptKeys p).rerank_id.getD "") = "" ∨
            ((renamePromptKeys p).rerank_id.getD "") ∈ rerankWhitelist ∨
            ((renamePromptKeys p).rerank_id.getD "") ∈ env.rerank_models)
    (hnm : nm ≠ "")
    (hdup : env.dialogs.any (fun d => d.name == nm && d.valid) = false)
    (htpl : validateTemplateParameters
        (match (renamePromptKeys p).system with
         | some s => if s = "" then defaultSystem else s
         | none => defaultSystem)
        ((renamePromptKeys p).parameters.getD defaultParameters) = none) :
    create_chat env { name := nm, prompt := some p } =
      .ok { id := env.new_id, name := nm,
            description := "A helpful Assistant", icon := "", kb_ids := [],
            llm_id := env.tenant_llm_id,
            prompt_config :=
              { system := some (match (renamePromptKeys p).system with
                  | some s => if s = "" then defaultSystem else s
                  | none => defaultSystem),
                prologue :=
                  some ((renamePromptKeys p).prologue.getD defaultPrologue),
                parameters :=
                  some ((renamePromptKeys p).parameters.getD
                    defaultParameters),
                empty_response :=
                  some ((renamePromptKeys p).empty_response.getD
                    defaultEmptyResponse),
                quote := some ((renamePromptKeys p).quote.getD true),
                tts := some ((renamePromptKeys p).tts.getD false),
                refine_multiturn :=
                  some ((renamePromptKeys p).refine_multiturn.getD true),
                top_k := none },
            similarity_threshold := (renamePromptKeys p).similarity_threshold,
            vector_similarity_weight :=
              (renamePromptKeys p).vector_similarity_weight,
            top_n := ((renamePromptKeys p).top_n).getD 6,
            top_k := ((renamePromptKeys p).top_k).getD 1024,
            rerank_id := ((renamePromptKeys p).rerank_id).getD "" } := by
  have hrercond : ¬ (¬ ((renamePromptKeys p).rerank_id.getD "") = "" ∧
      ((renamePromptKeys p).rerank_id.getD "") ∉ rerankWhitelist ∧
      ((renamePromptKeys p).rerank_id.getD "") ∉ env.rerank_models) := by
    rcases hrer with h | h | h
    · intro hc; exact hc.1 h
    · intro hc; exact hc.2.1 h
    · intro hc; exact hc.2.2 h
  have h0 : ([] : List String).eraseDups = [] := rfl
  simp only [create_chat, validateDatasetsCreate, checkKbList,
    List.filter_nil, List.isEmpty_nil, applyDefaults, firstSome_none]
  simp [hten, hnm, hdup, htpl, hrercond, h0, firstSome_none, applyDefaults]

/-- Claim C9, witnessed: a prompt supplying `show_quote = false` (a falsy
value that must be kept), an empty system template (falsy, so the default
template replaces it) and an empty parameter list creates successfully
under the merge rule. -/
theorem claim_C9_witness :
    (create_chat
      { kbs := [], chat_models := [], rerank_models := [],
        tenant_exists := true, tenant_llm_id := "m", dialogs := [],
        records := [], new_id := "u" }
      { name := "c",
        prompt := some
          { show_quote := some false, prompt := some "",
            variables_ := some [] } }).isOk = true := by
  rw [claim_C9
    { kbs := [], chat_models := [], rerank_models := [],
      tenant_exists := true, tenant_llm_id := "m", dialogs := [],
      records := [], new_id := "u" }
    "c"
    { show_quote := some false, prompt := some "", variables_ := some [] }
    rfl (Or.inl rfl) (by decide) rfl rfl]
  rfl

end Chatbot
